import Mathlib

/-
Verification development for datumaro's yolo_orientedbox_format extractor
(src/datumaro/plugins/yolo_orientedbox_format/extractor.py).

The embedding below translates the functions the claims are about:
  - the per-line annotation parsing loop of
    YoloOrientedboxExtractor._parse_annotations (lines 230-289),
  - the lazy resolution cache YoloOrientedboxExtractor._get (lines 158-188),
  - Subset.iteration over items (lines 53-57), including CPython's
    detection of a dict that changed size during iteration,
  - the names-key handling of _load_categories (lines 301-308).

Python strings that hold numeric tokens are abstracted by the Token type
below: what matters to the code is only whether int(...) or float(...)
succeeds on a token and which number it yields.  Python floats are
modelled as exact rationals; every concrete input used in the theorems
is exactly representable in binary floating point, so the model and the
float code agree on them.

External collaborators that are not part of this repository
(cv2.minAreaRect, LabelCategories, DatasetItem, Image, the error policy)
are modelled from the spec where the claims need them; each such
definition carries a doc comment saying so.
-/

set_option autoImplicit false
set_option maxRecDepth 100000

namespace YoloOB

/-- Python exception values reachable in the modelled code.  Constructors
correspond to InvalidAnnotationError, UndeclaredLabelError,
DatasetImportError, ValueError (tuple unpacking of a list whose length is
not 2), OSError (annotation file cannot be opened or read), KeyError and
RuntimeError (dict changed size during iteration).  Message strings are
elided; the label id carried by UndeclaredLabelError and the key carried
by KeyError are kept. -/
inductive PyErr where
  | invalidAnn
  | undeclared (n : Int)
  | importErr
  | valueErr
  | osErr
  | keyErr (k : String)
  | runtimeErr
deriving DecidableEq, Repr

/-- A whitespace-delimited token of an annotation line, abstracted by its
numeric interpretation: int n if Python int(...) succeeds (then float(...)
succeeds with the same value), num q if only float(...) succeeds, bad if
neither does. -/
inductive Token where
  | int (n : Int)
  | num (q : Rat)
  | bad
deriving DecidableEq, Repr

/-- A report forwarded to the error policy: the exception and the
item_id=(item id, subset name) pair it was reported with. -/
abbrev Report := PyErr × String × String

/-- Models _parse_field(value, int, ...) (lines 221-228): any failure of
int(value) is wrapped into an InvalidAnnotationError. -/
def parseIntField (t : Token) : Except PyErr Int :=
  match t with
  | .int n => .ok n
  | _ => .error .invalidAnn

/-- The rational standing for an integer.  The arithmetic of this model
goes through mkRat and the num and den projections rather than the
ambient Rat operations, because the latter are irreducible to the Lean
kernel; the functions ratI, rmul, rsub and rdivP below compute the exact
same rational values. -/
def ratI (n : Int) : Rat := Rat.ofInt n

/-- Exact product of two rationals. -/
def rmul (a b : Rat) : Rat := mkRat (a.num * b.num) (a.den * b.den)

/-- Exact difference of two rationals. -/
def rsub (a b : Rat) : Rat := mkRat (a.num * (b.den : Int) - b.num * (a.den : Int)) (a.den * b.den)

/-- Exact sum of two rationals. -/
def radd (a b : Rat) : Rat := mkRat (a.num * (b.den : Int) + b.num * (a.den : Int)) (a.den * b.den)

/-- Exact quotient of a rational by a positive integer (total: a
nonpositive divisor yields denominator 0, which mkRat sends to 0; all
divisors used by the model are positive). -/
def rdivP (a : Rat) (n : Int) : Rat := mkRat a.num (a.den * n.toNat)

/-- Minimum of two integers (spelled out so the kernel evaluates it). -/
def imin (a b : Int) : Int := if a ≤ b then a else b

/-- Maximum of two integers (spelled out so the kernel evaluates it). -/
def imax (a b : Int) : Int := if a ≤ b then b else a

/-- Models _parse_field(value, float, ...) (lines 221-228): any failure of
float(value) is wrapped into an InvalidAnnotationError. -/
def parseFloatField (t : Token) : Except PyErr Rat :=
  match t with
  | .int n => .ok (ratI n)
  | .num q => .ok q
  | .bad => .error .invalidAnn

/-- Truncation of a rational toward zero (the rounding used by a C cast
from double to a signed integer). -/
def ratTrunc (q : Rat) : Int :=
  Int.tdiv q.num q.den

/-- Models numpy astype(np.int32) applied in xyxyxyxy2xywhr (lines 39-42):
the scaled coordinate is truncated toward zero to a 32-bit integer; a
value outside the int32 range is mapped to -2^31, matching the x86
cvttsd2si behaviour numpy exhibits for out-of-range doubles. -/
def trunc32 (q : Rat) : Int :=
  let t := ratTrunc q
  if t < -(2 ^ 31) ∨ 2 ^ 31 ≤ t then -(2 ^ 31) else t

/-- Projection of point p onto direction d (times the length of d). -/
def projU (d p : Int × Int) : Int := p.1 * d.1 + p.2 * d.2

/-- Projection of point p onto the normal of direction d (times the
length of d). -/
def projV (d p : Int × Int) : Int := p.2 * d.1 - p.1 * d.2

/-- Minimum and maximum of a list of integers (0 for the empty list). -/
def minMax : List Int → Int × Int
  | [] => (0, 0)
  | x :: xs => xs.foldl (fun a y => (imin a.1 y, imax a.2 y)) (x, x)

/-- Area (scaled by the squared length of d) of the bounding rectangle of
pts aligned with direction d. -/
def dirArea (pts : List (Int × Int)) (d : Int × Int) : Int :=
  let u := minMax (pts.map (projU d))
  let v := minMax (pts.map (projV d))
  (u.2 - u.1) * (v.2 - v.1)

/-- Candidate side directions for the minimum-area enclosing rectangle:
all nonzero difference vectors between two input points.  A minimum-area
enclosing rectangle has a side collinear with an edge of the convex hull
of the points, and hull edges are difference vectors of input points, so
minimising over this superset of candidates reaches the true minimum. -/
def candDirs (pts : List (Int × Int)) : List (Int × Int) :=
  (pts.flatMap fun p => pts.map fun q => (q.1 - p.1, q.2 - p.2)).filter
    fun d => decide (d ≠ ((0 : Int), (0 : Int)))

/-- True when direction e gives a strictly smaller aligned bounding
rectangle than direction d (areas compared as exact rationals by
cross-multiplication). -/
def strictlyBetter (pts : List (Int × Int)) (d e : Int × Int) : Bool :=
  decide (dirArea pts e * (d.1 * d.1 + d.2 * d.2) < dirArea pts d * (e.1 * e.1 + e.2 * e.2))

/-- First candidate direction achieving the minimal aligned bounding
rectangle area ((1, 0) for a degenerate point set with no nonzero
difference vector). -/
def bestDir (pts : List (Int × Int)) : Int × Int :=
  match candDirs pts with
  | [] => (1, 0)
  | d :: ds => ds.foldl (fun b e => if strictlyBetter pts b e then e else b) d

/-- Result of the minimum-area rectangle computation: exact rational
center, squared extents (the extents themselves involve a square root,
so the model keeps their squares, which are rational), and the side
direction the rectangle is aligned with.  The rotation angle of the
rectangle is the angle of dir; in particular the angle is 0 exactly when
dir lies on the positive x-axis. -/
structure RectR where
  cx : Rat
  cy : Rat
  wSq : Rat
  hSq : Rat
  dir : Int × Int
deriving DecidableEq, Repr

/-- Modelled from the spec: cv2.minAreaRect, the one external algorithm
xyxyxyxy2xywhr (lines 39-42) delegates to, is not part of this
repository.  Spec section 4.4 step 4 defines it as the minimum-area
rectangle (of any orientation) enclosing the 4 points, yielding center,
extents and rotation angle, and section 8 pins the fixed angle
convention with the axis-aligned golden value (angle 0).  The model
minimises the aligned bounding rectangle over all candidate side
directions (see candDirs) and returns exact values as described at
RectR. -/
def minAreaRect (pts : List (Int × Int)) : RectR :=
  let d := bestDir pts
  let lenSq : Int := d.1 * d.1 + d.2 * d.2
  let u := minMax (pts.map (projU d))
  let v := minMax (pts.map (projV d))
  let cu : Rat := rdivP (ratI (u.1 + u.2)) 2
  let cv : Rat := rdivP (ratI (v.1 + v.2)) 2
  ⟨rdivP (rsub (rmul cu (ratI d.1)) (rmul cv (ratI d.2))) lenSq,
   rdivP (radd (rmul cu (ratI d.2)) (rmul cv (ratI d.1))) lenSq,
   rdivP (ratI ((u.2 - u.1) * (u.2 - u.1))) lenSq,
   rdivP (ratI ((v.2 - v.1) * (v.2 - v.1))) lenSq,
   d⟩

/-- The Bbox annotation emitted for one surviving line (lines 274-285):
center x, y, squared extents, side direction (carrying the angle stored
in the attributes), label, and id = group = the 0-based index of the
originating line.  Bbox itself is an external collaborator; the model
keeps exactly the fields the code passes to it. -/
structure Bbox where
  x : Rat
  y : Rat
  wSq : Rat
  hSq : Rat
  dir : Int × Int
  label : Int
  id : Nat
  group : Nat
deriving DecidableEq, Repr

/-- Geometric payload of a box: everything except the ordinal. -/
def geomOf (b : Bbox) : Rat × Rat × Rat × Rat × (Int × Int) × Int :=
  (b.x, b.y, b.wSq, b.hSq, b.dir, b.label)

/-- Scaling of the 4 normalized corner pairs by image width and height,
int32 truncation, and the minimum-area rectangle call (lines 272-285),
packaged into the emitted Bbox. -/
def boxFromCoords (wdt hgt idx : Nat) (labelId : Int)
    (x1 y1 x2 y2 x3 y3 x4 y4 : Rat) : Bbox :=
  let r := minAreaRect
    [(trunc32 (rmul x1 (ratI wdt)), trunc32 (rmul y1 (ratI hgt))),
     (trunc32 (rmul x2 (ratI wdt)), trunc32 (rmul y2 (ratI hgt))),
     (trunc32 (rmul x3 (ratI wdt)), trunc32 (rmul y3 (ratI hgt))),
     (trunc32 (rmul x4 (ratI wdt)), trunc32 (rmul y4 (ratI hgt)))]
  ⟨r.cx, r.cy, r.wSq, r.hSq, r.dir, labelId, idx, idx⟩

/-- Body of the per-line try block (lines 250-285): split result must
have exactly 9 fields; the label id must parse as an int and be contained
in the label categories; the 8 coordinates must parse as floats; then the
box is computed and emitted.  Membership of an integer in LabelCategories
is modelled from the spec (section 3: every referenced label id must be a
valid index into the ordered label set) as 0 <= id < number of labels;
LabelCategories itself is an external collaborator. -/
def lineResult (cats wdt hgt idx : Nat) (parts : List Token) : Except PyErr Bbox :=
  match parts with
  | [lt, tx1, ty1, tx2, ty2, tx3, ty3, tx4, ty4] =>
    match parseIntField lt with
    | .error e => .error e
    | .ok labelId =>
      if labelId < 0 ∨ (cats : Int) ≤ labelId then
        .error (.undeclared labelId)
      else
        match parseFloatField tx1 with
        | .error e => .error e
        | .ok x1 =>
          match parseFloatField ty1 with
          | .error e => .error e
          | .ok y1 =>
            match parseFloatField tx2 with
            | .error e => .error e
            | .ok x2 =>
              match parseFloatField ty2 with
              | .error e => .error e
              | .ok y2 =>
                match parseFloatField tx3 with
                | .error e => .error e
                | .ok x3 =>
                  match parseFloatField ty3 with
                  | .error e => .error e
                  | .ok y3 =>
                    match parseFloatField tx4 with
                    | .error e => .error e
                    | .ok x4 =>
                      match parseFloatField ty4 with
                      | .error e => .error e
                      | .ok y4 =>
                        .ok (boxFromCoords wdt hgt idx labelId x1 y1 x2 y2 x3 y3 x4 y4)
  | _ => .error .invalidAnn

/-- One iteration of the annotation loop (lines 249-287): a successful
line appends its box to the accumulated list, a failing line is caught
and appends a report (report_annotation_error with the owning item's
identity) instead. -/
def lineStep (cats wdt hgt : Nat) (iid : String × String)
    (acc : List Bbox × List Report) (p : Nat × List Token) : List Bbox × List Report :=
  match lineResult cats wdt hgt p.1 p.2 with
  | .ok b => (acc.1 ++ [b], acc.2)
  | .error e => (acc.1, acc.2 ++ [(e, iid.1, iid.2)])

/-- The per-line outcome as an optional box (used to state theorems). -/
def okBox (cats wdt hgt : Nat) (p : Nat × List Token) : Option Bbox :=
  (lineResult cats wdt hgt p.1 p.2).toOption

/-- The per-line outcome as an optional report (used to state theorems). -/
def errRep (cats wdt hgt : Nat) (iid : String × String) (p : Nat × List Token) :
    Option Report :=
  match lineResult cats wdt hgt p.1 p.2 with
  | .error e => some (e, iid.1, iid.2)
  | .ok _ => none

/-- Models _parse_annotations (lines 230-289).  The annotation file is
given as an optional list of raw lines (none when open or read fails,
modelling the uncaught OSError); a raw line is its token list, the empty
list standing for a line that strips to blank.  The image size is passed
as (height, width), none when the size cannot be obtained; it is
consulted only when at least one non-blank line exists, and its absence
then raises DatasetImportError.  Errors inside the line loop never
escape, so a returned error carries no line reports; the success value
pairs the surviving boxes with the reports issued for failing lines. -/
def parseAnnFile (cats : Nat) (file : Option (List (List Token)))
    (imgSize : Option (Nat × Nat)) (iid : String × String) :
    Except PyErr (List Bbox × List Report) :=
  match file with
  | none => .error .osErr
  | some raw =>
    if (raw.filter fun l => !l.isEmpty).isEmpty then .ok ([], [])
    else
      match imgSize with
      | none => .error .importErr
      | some sz =>
        .ok (((raw.filter fun l => !l.isEmpty).enum).foldl
          (lineStep cats sz.2 sz.1 iid) ([], []))

/-- Modelled from the spec: the annotations value stored on a
DatasetItem (an external collaborator).  Section 3 describes it as the
ordered sequence of surviving boxes; because Python is untyped, _get can
also store the first element of a 2-element parse result there via the
tuple unpacking on line 173, so the model keeps both shapes. -/
inductive AnnsVal where
  | ofList (l : List Bbox)
  | ofSingle (b : Bbox)
deriving DecidableEq, Repr

/-- Modelled from the spec: a materialized item (section 3): identifier,
subset name, image reference (path plus optionally known size) and the
annotations value.  DatasetItem itself is an external collaborator. -/
structure DatasetItem where
  id : String
  subset : String
  mediaPath : String
  mediaSize : Option (Nat × Nat)
  anns : AnnsVal
deriving DecidableEq, Repr

/-- A Python value _get can return: None, a DatasetItem, or - through the
annotation-level except branch on lines 181-182, which falls through to
the final return with the placeholder still bound - the raw filename
string. -/
inductive PyVal where
  | none
  | item (it : DatasetItem)
  | str (s : String)
deriving DecidableEq, Repr

/-- A value of the items mapping of a Subset (line 51): an unresolved
placeholder filename or a materialized item. -/
inductive Entry where
  | unresolved (fname : String)
  | resolved (it : DatasetItem)
deriving DecidableEq, Repr

/-- Environment of one subset: the declared label count, the per-item
side metadata sizes (image_info.get(item_id), keyed by item id), the
size obtainable by decoding the image (keyed by the stored filename,
none when the image is missing or undecodable), and the annotation file
contents (keyed by the stored filename, none when the file cannot be
opened or read).  Path juggling of the source (join with the root,
extension replacement) is an injective renaming and is elided. -/
structure Env where
  cats : Nat
  metaSize : String → Option (Nat × Nat)
  decodeSize : String → Option (Nat × Nat)
  annFile : String → Option (List (List Token))

/-- Lookup in the insertion-ordered items mapping. -/
def lookupEntry : List (String × Entry) → String → Option Entry
  | [], _ => none
  | p :: t, k => if p.1 = k then some p.2 else lookupEntry t k

/-- Assignment to an existing key of the items mapping (an OrderedDict
keeps the key at its position). -/
def setEntry : List (String × Entry) → String → Entry → List (String × Entry)
  | [], _, _ => []
  | p :: t, k, v => if p.1 = k then (k, v) :: setEntry t k v else p :: setEntry t k v

/-- Models subset.items.pop(item_id) (line 185). -/
def popEntry : List (String × Entry) → String → List (String × Entry)
  | [], _ => []
  | p :: t, k => if p.1 = k then popEntry t k else p :: popEntry t k

/-- True for the exception classes caught by the first except clause of
_get (line 181): UndeclaredLabelError and InvalidAnnotationError. -/
def isAnnLevel : PyErr → Bool
  | .invalidAnn => true
  | .undeclared _ => true
  | _ => false

/-- Decidable equality for Except values, needed to evaluate the
outcome records of the state machine on concrete inputs. -/
instance exceptDecEq {ε α : Type} [DecidableEq ε] [DecidableEq α] :
    DecidableEq (Except ε α) := fun a b =>
  match a, b with
  | .ok x, .ok y =>
    if h : x = y then .isTrue (by rw [h]) else .isFalse (by intro hc; cases hc; exact h rfl)
  | .error x, .error y =>
    if h : x = y then .isTrue (by rw [h]) else .isFalse (by intro hc; cases hc; exact h rfl)
  | .ok _, .error _ => .isFalse (by intro hc; cases hc)
  | .error _, .ok _ => .isFalse (by intro hc; cases hc)

/-- Outcome of one _get call: the returned value (or the exception it
raises), the items mapping afterwards, the annotation-level and
item-level reports issued, and how many times _parse_annotations was
invoked. -/
structure GetOut where
  result : Except PyErr PyVal
  items : List (String × Entry)
  annReports : List Report
  itemReports : List Report
  parseCalls : Nat
deriving DecidableEq, Repr

/-- Models YoloOrientedboxExtractor._get (lines 158-188) on one subset's
items mapping (the self subsets lookup of line 159 is modelled by
passing the mapping directly).
A missing key raises KeyError (line 160 is outside the try block).
A resolved entry is returned as is.  For a placeholder, the image is
built with the metadata size if image_info.get(item_id) yields one, else
with the lazy loader whose size is the decode result; then
_parse_annotations runs and its list result is tuple-unpacked into
(annotations, angle) - the unpacking on line 173 succeeds only for a
2-element list, binding annotations to the FIRST box, and raises
ValueError otherwise.  Annotation-level exceptions would be reported and
the placeholder string returned (lines 181-182; unreachable, since
_parse_annotations catches them internally); any other exception is
reported as an item error, the entry is popped and None returned. -/
def getItem (env : Env) (st : List (String × Entry)) (itemId subsetName : String) : GetOut :=
  match lookupEntry st itemId with
  | none => ⟨.error (.keyErr itemId), st, [], [], 0⟩
  | some (.resolved it) => ⟨.ok (.item it), st, [], [], 0⟩
  | some (.unresolved fname) =>
    let imgSize : Option (Nat × Nat) :=
      match env.metaSize itemId with
      | some sz => some sz
      | none => env.decodeSize fname
    match parseAnnFile env.cats (env.annFile fname) imgSize (itemId, subsetName) with
    | .error e =>
      if isAnnLevel e then
        ⟨.ok (.str fname), st, [(e, itemId, subsetName)], [], 1⟩
      else
        ⟨.ok .none, popEntry st itemId, [], [(e, itemId, subsetName)], 1⟩
    | .ok (boxes, reports) =>
      match boxes with
      | [a0, _a1] =>
        let it : DatasetItem := ⟨itemId, subsetName, fname, imgSize, .ofSingle a0⟩
        ⟨.ok (.item it), setEntry st itemId (.resolved it), reports, [], 1⟩
      | _ =>
        ⟨.ok .none, popEntry st itemId, reports, [(.valueErr, itemId, subsetName)], 1⟩

/-- Outcome of iterating a Subset: normal termination or the exception
escaping to the caller, the values yielded before that, the final items
mapping and all reports issued. -/
structure IterOut where
  result : Except PyErr Unit
  yielded : List PyVal
  items : List (String × Entry)
  annReports : List Report
  itemReports : List Report
deriving DecidableEq, Repr

/-- Worker for subsetIter: walks the keys captured when iteration began;
before consuming each key - and once more when the key sequence is
exhausted - CPython's dict iterator compares the current size with the
size recorded at creation and raises RuntimeError on a mismatch. -/
def subsetIterAux (env : Env) (subsetName : String) (n0 : Nat) :
    List String → List (String × Entry) → List PyVal → List Report → List Report → IterOut
  | [], st, ys, ar, ir =>
    if st.length ≠ n0 then ⟨.error .runtimeErr, ys, st, ar, ir⟩
    else ⟨.ok (), ys, st, ar, ir⟩
  | k :: ks, st, ys, ar, ir =>
    if st.length ≠ n0 then ⟨.error .runtimeErr, ys, st, ar, ir⟩
    else
      let o := getItem env st k subsetName
      match o.result with
      | .error e => ⟨.error e, ys, o.items, ar ++ o.annReports, ir ++ o.itemReports⟩
      | .ok v =>
        match v with
        | .none =>
          subsetIterAux env subsetName n0 ks o.items ys
            (ar ++ o.annReports) (ir ++ o.itemReports)
        | _ =>
          subsetIterAux env subsetName n0 ks o.items (ys ++ [v])
            (ar ++ o.annReports) (ir ++ o.itemReports)

/-- Models Subset iteration (lines 53-57): for each item id in the items
mapping, call the parent's _get and yield every value that is not None.
The for loop iterates the very dict that _get pops evicted entries from,
so the CPython size check of subsetIterAux applies. -/
def subsetIter (env : Env) (subsetName : String) (st : List (String × Entry)) : IterOut :=
  subsetIterAux env subsetName st.length (st.map Prod.fst) st [] [] []

/-- The shape of the value found under the names key of the category
file: a YAML list of names, a YAML mapping (its pairs listed in
iteration order), or anything else. -/
inductive NamesVal where
  | ofList (names : List String)
  | ofDict (pairs : List (Int × String))
  | other
deriving DecidableEq

/-- Models the names-key handling of _load_categories (lines 301-308): a
list is taken as the label names, a mapping contributes its values in
iteration order, any other shape raises DatasetImportError (fatal, since
_load_categories runs inside the constructor).  LabelCategories is an
external collaborator, modelled from the spec (section 3) as the ordered
list of names with id = position; the has_meta_file branch of lines
296-297 and the YAML reading itself are outside the claims. -/
def loadCategories : NamesVal → Except PyErr (List String)
  | .ofList names => .ok names
  | .ofDict pairs => .ok (pairs.map Prod.snd)
  | .other => .error .importErr

/-- Item id used in the concrete scenarios. -/
def idA : String := "a"

/-- Second item id used in the concrete scenarios. -/
def idB : String := "b"

/-- Subset name used in the concrete scenarios. -/
def subS : String := "s"

/-- Stored filename of the first concrete entry. -/
def fnameF1 : String := "f1"

/-- Stored filename of the second concrete entry. -/
def fnameF2 : String := "f2"

/-- The golden annotation line of spec section 8: label 0 and corners
normalized to (0.25, 0.25), (0.75, 0.25), (0.75, 0.75), (0.25, 0.75). -/
def goldenLine : List Token :=
  [.int 0, .num (mkRat 1 4), .num (mkRat 1 4), .num (mkRat 3 4), .num (mkRat 1 4),
   .num (mkRat 3 4), .num (mkRat 3 4), .num (mkRat 1 4), .num (mkRat 3 4)]

/-- A line with only 8 tokens (one coordinate missing), the isolation
example of spec section 8. -/
def badLine8 : List Token :=
  [.int 0, .num (mkRat 1 4), .num (mkRat 1 4), .num (mkRat 3 4), .num (mkRat 1 4),
   .num (mkRat 3 4), .num (mkRat 3 4), .num (mkRat 1 4)]

/-- The box produced for the golden line with a 100 x 100 image, at line
index i: center (50, 50), squared extents (2500, 2500) so the extents
are (50, 50), side direction (50, 0) so the angle is 0. -/
def goldenBox (i : Nat) : Bbox :=
  ⟨50, 50, 2500, 2500, (50, 0), 0, i, i⟩

/-- An annotation file whose first line fails (8 tokens) and whose
second line survives. -/
def cxFile : List (List Token) := [badLine8, goldenLine]

/-- Environment for the concrete _get scenarios: one declared label,
metadata size 100 x 100 for every item, annotation file of fnameF1
holding cxFile. -/
def env1 : Env :=
  ⟨1, fun _ => some (100, 100), fun _ => none,
   fun s => if s = fnameF1 then some cxFile else none⟩

/-- Environment for the concrete iteration scenario: the annotation file
of fnameF1 is unreadable, the one of fnameF2 holds two golden lines (so
its entry is resolvable even through the tuple-unpack slip). -/
def env2 : Env :=
  ⟨1, fun _ => some (100, 100), fun _ => none,
   fun s => if s = fnameF2 then some [goldenLine, goldenLine] else none⟩

/-- Environment in which every annotation file is unreadable. -/
def env3 : Env :=
  ⟨1, fun _ => some (100, 100), fun _ => none, fun _ => none⟩

/-- A concrete materialized item used to instantiate cache theorems. -/
def itemW : DatasetItem :=
  ⟨idA, subS, fnameF1, some (100, 100), .ofList []⟩

/-- The golden line with every coordinate shifted by 0.001: fractional
pixel positions differ from goldenLine but every scaled coordinate
truncates to the same integer. -/
def shiftedLine : List Token :=
  [.int 0, .num (mkRat 251 1000), .num (mkRat 251 1000), .num (mkRat 751 1000),
   .num (mkRat 251 1000), .num (mkRat 751 1000), .num (mkRat 751 1000),
   .num (mkRat 251 1000), .num (mkRat 751 1000)]

/-- A well-formed 9-token line whose normalized coordinates lie outside
the unit interval: corners (-0.5, -0.5), (1.5, -0.5), (1.5, 1.5),
(-0.5, 1.5). -/
def oorLine : List Token :=
  [.int 0, .num (mkRat (-1) 2), .num (mkRat (-1) 2), .num (mkRat 3 2),
   .num (mkRat (-1) 2), .num (mkRat 3 2), .num (mkRat 3 2),
   .num (mkRat (-1) 2), .num (mkRat 3 2)]

/-- The annotation loop is a per-line map: folding lineStep over any
enumerated line list appends exactly the per-line boxes to the first
accumulator component and the per-line reports to the second. -/
theorem foldl_lineStep (cats wdt hgt : Nat) (iid : String × String) :
    ∀ (l : List (Nat × List Token)) (b : List Bbox) (r : List Report),
      l.foldl (lineStep cats wdt hgt iid) (b, r) =
        (b ++ l.filterMap (okBox cats wdt hgt), r ++ l.filterMap (errRep cats wdt hgt iid)) := by
  intro l
  induction l with
  | nil => intro b r; simp
  | cons p t ih =>
    intro b r
    cases h : lineResult cats wdt hgt p.1 p.2 with
    | ok bx =>
      simp only [List.foldl_cons, lineStep, h, List.filterMap_cons, okBox, errRep,
        Except.toOption, ih, List.append_assoc, List.singleton_append]
    | error e =>
      simp only [List.foldl_cons, lineStep, h, List.filterMap_cons, okBox, errRep,
        Except.toOption, ih, List.append_assoc, List.singleton_append]

/-- Characterization of a parse of a readable annotation file with a
known image size: it always succeeds, the surviving boxes are the
per-line successes in file order, the reports are the per-line failures
in file order. -/
theorem parseAnnFile_char (cats hgt wdt : Nat) (raw : List (List Token))
    (iid : String × String) :
    parseAnnFile cats (some raw) (some (hgt, wdt)) iid =
      .ok ((raw.filter fun l => !l.isEmpty).enum.filterMap (okBox cats wdt hgt),
           (raw.filter fun l => !l.isEmpty).enum.filterMap (errRep cats wdt hgt iid)) := by
  unfold parseAnnFile
  by_cases h : (raw.filter fun l => !l.isEmpty).isEmpty
  · rw [List.isEmpty_iff] at h
    simp [h]
  · simp only [h, Bool.false_eq_true, if_false]
    rw [foldl_lineStep]
    simp

/-- A successfully parsed line carries its 0-based index as both id and
group of the emitted box. -/
theorem lineResult_ok_idx (cats wdt hgt idx : Nat) (parts : List Token) (b : Bbox)
    (h : lineResult cats wdt hgt idx parts = .ok b) : b.id = idx ∧ b.group = idx := by
  unfold lineResult at h
  repeat' split at h
  all_goals cases h
  all_goals exact ⟨rfl, rfl⟩

/-- Membership in an enumeration determines the element at that index. -/
theorem get?_of_mem_enumFrom {α : Type} :
    ∀ (l : List α) (n : Nat) (p : Nat × α), p ∈ l.enumFrom n →
      n ≤ p.1 ∧ l.get? (p.1 - n) = some p.2 := by
  intro l
  induction l with
  | nil => intro n p hp; simp [List.enumFrom] at hp
  | cons a t ih =>
    intro n p hp
    simp only [List.enumFrom, List.mem_cons] at hp
    rcases hp with hp | hp
    · subst hp
      simp
    · rcases ih (n + 1) p hp with ⟨h1, h2⟩
      constructor
      · omega
      · have hs : p.1 - n = (p.1 - (n + 1)) + 1 := by omega
        rw [hs]
        simpa using h2

/-- Membership in List.enum determines the element at that index. -/
theorem get?_of_mem_enum {α : Type} (l : List α) (p : Nat × α) (hp : p ∈ l.enum) :
    l.get? p.1 = some p.2 := by
  have := get?_of_mem_enumFrom l 0 p hp
  simpa using this.2

/-- A key is gone from the items mapping after popEntry. -/
theorem lookupEntry_pop (st : List (String × Entry)) (k : String) :
    lookupEntry (popEntry st k) k = none := by
  induction st with
  | nil => rfl
  | cons p t ih =>
    by_cases h : p.1 = k
    · simp only [popEntry, if_pos h, ih]
    · simp only [popEntry, if_neg h, lookupEntry, ih, if_neg h]

/-- Assignment to a present key makes lookup return the new value. -/
theorem lookupEntry_set (st : List (String × Entry)) (k : String) (v e : Entry)
    (h : lookupEntry st k = some e) :
    lookupEntry (setEntry st k v) k = some v := by
  induction st with
  | nil => simp [lookupEntry] at h
  | cons p t ih =>
    by_cases hk : p.1 = k
    · simp [setEntry, if_pos hk, lookupEntry]
    · simp only [lookupEntry, if_neg hk] at h
      simp only [setEntry, if_neg hk, lookupEntry, if_neg hk]
      exact ih h

/-- C1: the claim says that when the annotation file opens, the image
size is obtainable and at least one line parses, _get materializes a
DatasetItem holding exactly the surviving boxes, marks the entry
Resolved and returns the item.  The code does not: line 173 tuple-unpacks
the list returned by _parse_annotations into (annotations, angle), which
raises ValueError unless exactly two boxes survive; the generic except
clause then reports an item error, pops the entry and returns None.
This theorem evaluates the model on a file whose first line has 8 tokens
and whose second line is valid: one box survives, parsing succeeds, yet
the entry is evicted with a ValueError item report instead of being
resolved. -/
theorem c1_unpack_evicts_item :
    getItem env1 [(idA, Entry.unresolved fnameF1)] idA subS =
      ⟨.ok .none, [], [(.invalidAnn, idA, subS)], [(.valueErr, idA, subS)], 1⟩ := by
  decide

/-- C2: the claim says a failing entry is reported, evicted, and
iteration continues to yield every remaining resolvable item with no
exception escaping.  The code reports and evicts, but the eviction pops
from the very dict the for loop of Subset iteration walks, so CPython
raises RuntimeError at the next step.  Here the first entry's annotation
file is unreadable and the second entry is resolvable; iteration ends
with RuntimeError after the eviction and yields nothing at all. -/
theorem c2_iter_runtime_error :
    subsetIter env2 subS [(idA, Entry.unresolved fnameF1), (idB, Entry.unresolved fnameF2)] =
      ⟨.error .runtimeErr, [], [(idB, Entry.unresolved fnameF2)], [], [(.osErr, idA, subS)]⟩ := by
  decide

/-- C3 counterexample: the claim says that after an unrecoverable
failure every later get of the same id returns nothing.  In the code the
items lookup on line 160 sits outside the try block, so after the entry
is evicted a second _get raises KeyError instead of returning None. -/
theorem c3_get_after_eviction_raises :
    (getItem env3 (getItem env3 [(idA, Entry.unresolved fnameF1)] idA subS).items
        idA subS).result = .error (.keyErr idA)
  ∧ (getItem env3 (getItem env3 [(idA, Entry.unresolved fnameF1)] idA subS).items
        idA subS).result ≠ .ok PyVal.none := by
  decide

/-- C3 as amended: resolution is at most once per id.  A resolved entry
is returned unchanged with the parser not invoked; a missing (evicted)
id raises KeyError with the parser not invoked; an unresolved entry
whose resolution fails unrecoverably is evicted from the mapping; an
unresolved entry whose resolution succeeds is stored resolved with the
returned item. -/
theorem c3_cache_at_most_once (env : Env) (st : List (String × Entry)) (k sn : String) :
    (∀ it, lookupEntry st k = some (.resolved it) →
        getItem env st k sn = ⟨.ok (.item it), st, [], [], 0⟩)
  ∧ (lookupEntry st k = none →
        getItem env st k sn = ⟨.error (.keyErr k), st, [], [], 0⟩)
  ∧ (∀ fname, lookupEntry st k = some (.unresolved fname) →
        (getItem env st k sn).result = .ok .none →
        lookupEntry (getItem env st k sn).items k = none)
  ∧ (∀ fname it, lookupEntry st k = some (.unresolved fname) →
        (getItem env st k sn).result = .ok (.item it) →
        lookupEntry (getItem env st k sn).items k = some (.resolved it)) := by
  refine ⟨?_, ?_, ?_, ?_⟩
  · intro it h
    simp [getItem, h]
  · intro h
    simp [getItem, h]
  · intro fname h hr
    simp only [getItem, h] at hr ⊢
    cases hp : parseAnnFile env.cats (env.annFile fname)
        (match env.metaSize k with
          | some sz => some sz
          | none => env.decodeSize fname) (k, sn) with
    | error e =>
      simp only [hp] at hr ⊢
      by_cases ha : isAnnLevel e
      · simp [ha] at hr
      · simp only [ha, Bool.false_eq_true, if_false]
        exact lookupEntry_pop st k
    | ok pr =>
      obtain ⟨boxes, reports⟩ := pr
      simp only [hp] at hr ⊢
      match boxes with
      | [] => exact lookupEntry_pop st k
      | [a0] => exact lookupEntry_pop st k
      | [a0, a1] => simp at hr
      | a0 :: a1 :: a2 :: rest => exact lookupEntry_pop st k
  · intro fname it h hr
    simp only [getItem, h] at hr ⊢
    cases hp : parseAnnFile env.cats (env.annFile fname)
        (match env.metaSize k with
          | some sz => some sz
          | none => env.decodeSize fname) (k, sn) with
    | error e =>
      simp only [hp] at hr
      by_cases ha : isAnnLevel e
      · simp [ha] at hr
      · simp [ha] at hr
    | ok pr =>
      obtain ⟨boxes, reports⟩ := pr
      simp only [hp] at hr ⊢
      match boxes with
      | [] => simp at hr
      | [a0] => simp at hr
      | [a0, a1] =>
        simp only [Except.ok.injEq, PyVal.item.injEq] at hr
        subst hr
        exact lookupEntry_set st k _ (.unresolved fname) h
      | a0 :: a1 :: a2 :: rest => simp at hr

/-- C3 amended witness: a resolved entry is returned as cached with zero
parser invocations, and a get for an id no longer present raises
KeyError with zero parser invocations. -/
theorem c3_cache_at_most_once_witness :
    getItem env3 [(idA, Entry.resolved itemW)] idA subS =
        ⟨.ok (.item itemW), [(idA, Entry.resolved itemW)], [], [], 0⟩
  ∧ getItem env3 [] idA subS = ⟨.error (.keyErr idA), [], [], [], 0⟩ :=
  ⟨(c3_cache_at_most_once env3 [(idA, Entry.resolved itemW)] idA subS).1 itemW (by decide),
   (c3_cache_at_most_once env3 [] idA subS).2.1 (by decide)⟩

/-- C4: within one annotation file each non-blank line is processed
independently.  With a readable file and a known image size the parse
always succeeds and equals, line by line, the per-line outcome: the
surviving boxes are the per-line successes in order and every per-line
failure is reported with the owning item's identity; nothing else is
skipped.  A failure to open or read the file itself is not caught by
the parser: it propagates (here, the OSError result) to the caller. -/
theorem c4_line_isolation (cats hgt wdt : Nat) (raw : List (List Token))
    (iid : String × String) :
    (parseAnnFile cats (some raw) (some (hgt, wdt)) iid =
      .ok ((raw.filter fun l => !l.isEmpty).enum.filterMap (okBox cats wdt hgt),
           (raw.filter fun l => !l.isEmpty).enum.filterMap (errRep cats wdt hgt iid)))
  ∧ ∀ sz, parseAnnFile cats none sz iid = .error .osErr :=
  ⟨parseAnnFile_char cats hgt wdt raw iid, fun _ => rfl⟩

/-- C5: every emitted box carries its originating line's 0-based
position as both id and group, and the box is exactly the one computed
from the line standing at that position of the file, regardless of
earlier failing lines.  The second conjunct shows non-contiguous
ordinals on a concrete file whose first line fails: the surviving box
carries ordinal 1. -/
theorem c5_ordinals (cats hgt wdt : Nat) (raw : List (List Token)) (iid : String × String)
    (boxes : List Bbox) (reports : List Report)
    (hp : parseAnnFile cats (some raw) (some (hgt, wdt)) iid = .ok (boxes, reports)) :
    (∀ b ∈ boxes, b.group = b.id ∧
      Option.map (lineResult cats wdt hgt b.id) ((raw.filter fun l => !l.isEmpty).get? b.id)
        = some (.ok b))
  ∧ (parseAnnFile 1 (some cxFile) (some (100, 100)) iid).map
        (fun r => r.1.map (fun b => b.id)) = .ok [1] := by
  constructor
  · rw [parseAnnFile_char] at hp
    have hb : boxes = (raw.filter fun l => !l.isEmpty).enum.filterMap (okBox cats wdt hgt) := by
      cases hp
      rfl
    subst hb
    intro b hbmem
    obtain ⟨p, hpmem, hok⟩ := List.mem_filterMap.mp hbmem
    have hok' : lineResult cats wdt hgt p.1 p.2 = .ok b := by
      unfold okBox at hok
      cases hres : lineResult cats wdt hgt p.1 p.2 with
      | ok bx => rw [hres] at hok; cases hok; rfl
      | error e => rw [hres] at hok; cases hok
    obtain ⟨hid, hgr⟩ := lineResult_ok_idx cats wdt hgt p.1 p.2 b hok'
    have hget := get?_of_mem_enum (raw.filter fun l => !l.isEmpty) p hpmem
    refine ⟨by rw [hid, hgr], ?_⟩
    rw [hid, hget]
    simp [hok']
  · rw [parseAnnFile_char]
    have hX : (cxFile.filter fun l => !l.isEmpty).enum.filterMap (okBox 1 100 100)
        = [goldenBox 1] := by decide
    rw [hX]
    rfl

/-- C5 witness: in the concrete two-line file whose first line fails,
the surviving box has group equal to id, its id names the line at
position 1 of the file, and that line reproduces the box. -/
theorem c5_ordinals_witness :
    (goldenBox 1).group = (goldenBox 1).id ∧
    Option.map (lineResult 1 100 100 (goldenBox 1).id)
        ((cxFile.filter fun l => !l.isEmpty).get? (goldenBox 1).id)
      = some (.ok (goldenBox 1)) :=
  (c5_ordinals 1 100 100 cxFile (idA, subS) [goldenBox 1] [(.invalidAnn, idA, subS)]
    (by decide)).1 (goldenBox 1) (by decide)

/-- C6: a file with no non-blank line parses to the empty annotation
list for every image size value, so the size is never needed and no
decode is triggered; a file with at least one non-blank line and no
obtainable size raises DatasetImportError before any line is
processed (the error outcome carries no line report). -/
theorem c6_lazy_size (cats : Nat) (raw : List (List Token)) (iid : String × String) :
    (∀ sz, (raw.filter fun l => !l.isEmpty) = [] →
        parseAnnFile cats (some raw) sz iid = .ok ([], []))
  ∧ ((raw.filter fun l => !l.isEmpty) ≠ [] →
        parseAnnFile cats (some raw) none iid = .error .importErr) := by
  constructor
  · intro sz h
    simp [parseAnnFile, h]
  · intro h
    simp [parseAnnFile, h]

/-- C6 witness: a file holding one blank line parses to no annotations
even with no size available, and adding one non-blank line to a file
with no size available turns the parse into DatasetImportError. -/
theorem c6_lazy_size_witness :
    parseAnnFile 1 (some [[]]) none (idA, subS) = .ok ([], [])
  ∧ parseAnnFile 1 (some [goldenLine]) none (idA, subS) = .error .importErr :=
  ⟨(c6_lazy_size 1 [[]] (idA, subS)).1 none (by decide),
   (c6_lazy_size 1 [goldenLine] (idA, subS)).2 (by decide)⟩

/-- C7: a list under the names key yields the names with id = list
position, a mapping yields its values in iteration order with ids
assigned by that order, and any other shape is the fatal
DatasetImportError; concretely the list a, b, c yields ids 0, 1, 2. -/
theorem c7_categories :
    (∀ ns, loadCategories (.ofList ns) = .ok ns)
  ∧ (∀ ps : List (Int × String), loadCategories (.ofDict ps) = .ok (ps.map Prod.snd))
  ∧ loadCategories .other = .error .importErr
  ∧ loadCategories (.ofList ["a", "b", "c"]) = .ok ["a", "b", "c"]
  ∧ ["a", "b", "c"].indexOf ("a") = 0
  ∧ ["a", "b", "c"].indexOf ("b") = 1
  ∧ ["a", "b", "c"].indexOf ("c") = 2 :=
  ⟨fun _ => rfl, fun _ => rfl, rfl, rfl, by decide, by decide, by decide⟩

/-- C8: for a 100 x 100 image and the golden corners (0.25, 0.25),
(0.75, 0.25), (0.75, 0.75), (0.25, 0.75) the emitted box has center
(50, 50), extents (50, 50) (the model stores their squares, 2500 each)
and angle 0 (the model stores the side direction (50, 0), which lies on
the positive x-axis, the angle-0 direction of the fixed convention). -/
theorem c8_golden_geometry :
    parseAnnFile 1 (some [goldenLine]) (some (100, 100)) (idA, subS) =
      .ok ([⟨50, 50, 2500, 2500, (50, 0), 0, 0, 0⟩], []) := by
  decide

/-- C9: the scaled corners are truncated to 32-bit integers before the
rectangle computation, so two lines with the same declared label and
image size whose scaled corners truncate to the same integers emit
boxes with identical center, extents, angle and label, whatever their
fractional pixel positions were. -/
theorem c9_truncation_determines_box (cats wdt hgt i1 i2 : Nat) (lt lu : Token) (n : Int)
    (t1 t2 t3 t4 t5 t6 t7 t8 u1 u2 u3 u4 u5 u6 u7 u8 : Token)
    (q1 q2 q3 q4 q5 q6 q7 q8 r1 r2 r3 r4 r5 r6 r7 r8 : Rat)
    (hlt : parseIntField lt = .ok n) (hlu : parseIntField lu = .ok n)
    (hn : ¬(n < 0 ∨ (cats : Int) ≤ n))
    (h1 : parseFloatField t1 = .ok q1) (h2 : parseFloatField t2 = .ok q2)
    (h3 : parseFloatField t3 = .ok q3) (h4 : parseFloatField t4 = .ok q4)
    (h5 : parseFloatField t5 = .ok q5) (h6 : parseFloatField t6 = .ok q6)
    (h7 : parseFloatField t7 = .ok q7) (h8 : parseFloatField t8 = .ok q8)
    (g1 : parseFloatField u1 = .ok r1) (g2 : parseFloatField u2 = .ok r2)
    (g3 : parseFloatField u3 = .ok r3) (g4 : parseFloatField u4 = .ok r4)
    (g5 : parseFloatField u5 = .ok r5) (g6 : parseFloatField u6 = .ok r6)
    (g7 : parseFloatField u7 = .ok r7) (g8 : parseFloatField u8 = .ok r8)
    (e1 : trunc32 (rmul q1 (ratI wdt)) = trunc32 (rmul r1 (ratI wdt)))
    (e2 : trunc32 (rmul q2 (ratI hgt)) = trunc32 (rmul r2 (ratI hgt)))
    (e3 : trunc32 (rmul q3 (ratI wdt)) = trunc32 (rmul r3 (ratI wdt)))
    (e4 : trunc32 (rmul q4 (ratI hgt)) = trunc32 (rmul r4 (ratI hgt)))
    (e5 : trunc32 (rmul q5 (ratI wdt)) = trunc32 (rmul r5 (ratI wdt)))
    (e6 : trunc32 (rmul q6 (ratI hgt)) = trunc32 (rmul r6 (ratI hgt)))
    (e7 : trunc32 (rmul q7 (ratI wdt)) = trunc32 (rmul r7 (ratI wdt)))
    (e8 : trunc32 (rmul q8 (ratI hgt)) = trunc32 (rmul r8 (ratI hgt))) :
    lineResult cats wdt hgt i1 [lt, t1, t2, t3, t4, t5, t6, t7, t8] =
        .ok (boxFromCoords wdt hgt i1 n q1 q2 q3 q4 q5 q6 q7 q8)
  ∧ lineResult cats wdt hgt i2 [lu, u1, u2, u3, u4, u5, u6, u7, u8] =
        .ok (boxFromCoords wdt hgt i2 n r1 r2 r3 r4 r5 r6 r7 r8)
  ∧ geomOf (boxFromCoords wdt hgt i1 n q1 q2 q3 q4 q5 q6 q7 q8) =
        geomOf (boxFromCoords wdt hgt i2 n r1 r2 r3 r4 r5 r6 r7 r8) := by
  refine ⟨?_, ?_, ?_⟩
  · simp only [lineResult, hlt, if_neg hn, h1, h2, h3, h4, h5, h6, h7, h8]
  · simp only [lineResult, hlu, if_neg hn, g1, g2, g3, g4, g5, g6, g7, g8]
  · simp only [geomOf, boxFromCoords, e1, e2, e3, e4, e5, e6, e7, e8]

/-- C9 witness: the golden line and the line shifted by 0.001 have
different fractional pixel positions, equal truncations, and emit boxes
with identical geometry. -/
theorem c9_truncation_witness :
    lineResult 1 100 100 0 goldenLine =
        .ok (boxFromCoords 100 100 0 0 (mkRat 1 4) (mkRat 1 4) (mkRat 3 4) (mkRat 1 4)
          (mkRat 3 4) (mkRat 3 4) (mkRat 1 4) (mkRat 3 4))
  ∧ lineResult 1 100 100 1 shiftedLine =
        .ok (boxFromCoords 100 100 1 0 (mkRat 251 1000) (mkRat 251 1000) (mkRat 751 1000)
          (mkRat 251 1000) (mkRat 751 1000) (mkRat 751 1000) (mkRat 251 1000) (mkRat 751 1000))
  ∧ geomOf (boxFromCoords 100 100 0 0 (mkRat 1 4) (mkRat 1 4) (mkRat 3 4) (mkRat 1 4)
        (mkRat 3 4) (mkRat 3 4) (mkRat 1 4) (mkRat 3 4)) =
      geomOf (boxFromCoords 100 100 1 0 (mkRat 251 1000) (mkRat 251 1000) (mkRat 751 1000)
        (mkRat 251 1000) (mkRat 751 1000) (mkRat 751 1000) (mkRat 251 1000) (mkRat 751 1000)) :=
  c9_truncation_determines_box 1 100 100 0 1 (.int 0) (.int 0) 0
    (.num (mkRat 1 4)) (.num (mkRat 1 4)) (.num (mkRat 3 4)) (.num (mkRat 1 4))
    (.num (mkRat 3 4)) (.num (mkRat 3 4)) (.num (mkRat 1 4)) (.num (mkRat 3 4))
    (.num (mkRat 251 1000)) (.num (mkRat 251 1000)) (.num (mkRat 751 1000))
    (.num (mkRat 251 1000)) (.num (mkRat 751 1000)) (.num (mkRat 751 1000))
    (.num (mkRat 251 1000)) (.num (mkRat 751 1000))
    (mkRat 1 4) (mkRat 1 4) (mkRat 3 4) (mkRat 1 4)
    (mkRat 3 4) (mkRat 3 4) (mkRat 1 4) (mkRat 3 4)
    (mkRat 251 1000) (mkRat 251 1000) (mkRat 751 1000) (mkRat 251 1000)
    (mkRat 751 1000) (mkRat 751 1000) (mkRat 251 1000) (mkRat 751 1000)
    rfl rfl (by decide)
    rfl rfl rfl rfl rfl rfl rfl rfl
    rfl rfl rfl rfl rfl rfl rfl rfl
    (by decide) (by decide) (by decide) (by decide)
    (by decide) (by decide) (by decide) (by decide)

/-- C10: a 9-token line whose label id parses and is declared and whose
8 coordinate tokens parse as numbers is always accepted: the box is
emitted from the scaled, truncated corners with no range check, so
coordinates outside the unit interval simply land outside the image. -/
theorem c10_out_of_range_accepted (cats wdt hgt i : Nat) (lt : Token) (n : Int)
    (t1 t2 t3 t4 t5 t6 t7 t8 : Token) (q1 q2 q3 q4 q5 q6 q7 q8 : Rat)
    (hlt : parseIntField lt = .ok n)
    (hn : ¬(n < 0 ∨ (cats : Int) ≤ n))
    (h1 : parseFloatField t1 = .ok q1) (h2 : parseFloatField t2 = .ok q2)
    (h3 : parseFloatField t3 = .ok q3) (h4 : parseFloatField t4 = .ok q4)
    (h5 : parseFloatField t5 = .ok q5) (h6 : parseFloatField t6 = .ok q6)
    (h7 : parseFloatField t7 = .ok q7) (h8 : parseFloatField t8 = .ok q8) :
    lineResult cats wdt hgt i [lt, t1, t2, t3, t4, t5, t6, t7, t8] =
      .ok (boxFromCoords wdt hgt i n q1 q2 q3 q4 q5 q6 q7 q8) := by
  simp only [lineResult, hlt, if_neg hn, h1, h2, h3, h4, h5, h6, h7, h8]

/-- C10 witness: the line with corners (-0.5, -0.5), (1.5, -0.5),
(1.5, 1.5), (-0.5, 1.5) - coordinates below 0 and above 1 - is accepted
and emits its box. -/
theorem c10_out_of_range_witness :
    lineResult 1 100 100 0 oorLine =
        .ok (boxFromCoords 100 100 0 0 (mkRat (-1) 2) (mkRat (-1) 2) (mkRat 3 2)
          (mkRat (-1) 2) (mkRat 3 2) (mkRat 3 2) (mkRat (-1) 2) (mkRat 3 2))
  ∧ mkRat (-1) 2 < 0 ∧ (1 : Rat) < mkRat 3 2 :=
  ⟨c10_out_of_range_accepted 1 100 100 0 (.int 0) 0
      (.num (mkRat (-1) 2)) (.num (mkRat (-1) 2)) (.num (mkRat 3 2)) (.num (mkRat (-1) 2))
      (.num (mkRat 3 2)) (.num (mkRat 3 2)) (.num (mkRat (-1) 2)) (.num (mkRat 3 2))
      (mkRat (-1) 2) (mkRat (-1) 2) (mkRat 3 2) (mkRat (-1) 2)
      (mkRat 3 2) (mkRat 3 2) (mkRat (-1) 2) (mkRat 3 2)
      rfl (by decide)
      rfl rfl rfl rfl rfl rfl rfl rfl,
   by decide, by decide⟩

end YoloOB
